import Mathlib

/-!
Verification of the Marker Computation & Caching Subsystem of the
`juni-farm` repository, shallowly embedded in Lean 4.

The embedding covers:

* `src/juni_farm/markers/time_varying/instant_phase_connectivity_base.py`
  (filter-parameter validation, the instantaneous phase-coherence tensor
  and the result packaging);
* `src/juni_farm/markers/bctpy/bctpy_spheres.py`
  (metric-registry dispatch and the graph-metric result packaging);
* `src/juni_farm/markers/bctpy/bctpy_spheres_estimator.py`
  (the singleton memoizing estimator: identity-scoped cache, cache
  clearing, and the keyword-argument binding of the wrapped call).

External library calls (scipy z-scoring, the Butterworth filter, the
Hilbert transform, the junifer aggregation step, the wrapped
FunctionalConnectivitySpheres computation) are taken as oracle
parameters: the claims under scrutiny quantify over their outputs.
Python floats are modelled as rationals where the source only compares
and stores them, and as reals where trigonometry is involved.
-/

namespace JuniFarm

/-! ## Instantaneous phase connectivity: the phase-coherence tensor

`compute` of `InstantPhaseConnectivityBase` (lines 128-201) ends with

  phi = np.angle(signal.hilbert(filtered_data, axis=0))   -- (T, R)
  iphc = np.cos(phi[:, None, :] - phi[:, :, None])        -- (T, R, R)

Broadcasting gives `(phi[:, None, :] - phi[:, :, None])[t, i, j]
= phi[t, j] - phi[t, i]`, hence the definition below. -/

/-- A time × region matrix of reals (the shape of the conditioned phase
matrix `phi`, `n_timepoints x n_rois`). -/
def Mat (T R : ℕ) : Type := Fin T → Fin R → ℝ

/-- The instantaneous phase-coherence tensor of line 192:
`np.cos(phi[:, None, :] - phi[:, :, None])`, whose `[t, i, j]` entry is
`cos(phi[t, j] - phi[t, i])` by NumPy broadcasting. -/
noncomputable def iphc {T R : ℕ} (phi : Mat T R) :
    Fin T → Fin R → Fin R → ℝ :=
  fun t i j => Real.cos (phi t j - phi t i)

/-- C2. For every conditioned phase matrix, the connectivity tensor is
shaped (time, region, region) — expressed by the type of `iphc` — and
its entry at `(t, i, j)` equals `cos(phase[t, i] - phase[t, j])`. -/
theorem iphc_entry_eq_cos_phase_diff {T R : ℕ} (phi : Mat T R)
    (t : Fin T) (i j : Fin R) :
    iphc phi t i j = Real.cos (phi t i - phi t j) := by
  unfold iphc
  rw [show phi t j - phi t i = -(phi t i - phi t j) by ring, Real.cos_neg]

/-- C4. The phase-coherence tensor has exact unit diagonal: for every
timepoint `t` and region `i`, `iphc phi t i i = 1`. -/
theorem iphc_diag_eq_one {T R : ℕ} (phi : Mat T R) (t : Fin T) (i : Fin R) :
    iphc phi t i i = 1 := by
  unfold iphc
  rw [sub_self, Real.cos_zero]

/-- C5. The phase-coherence tensor is symmetric per timepoint:
`iphc phi t i j = iphc phi t j i` for all regions `i`, `j`. -/
theorem iphc_symm {T R : ℕ} (phi : Mat T R) (t : Fin T) (i j : Fin R) :
    iphc phi t i j = iphc phi t j i := by
  unfold iphc
  rw [show phi t j - phi t i = -(phi t i - phi t j) by ring, Real.cos_neg]

/-! ## InstantPhaseConnectivityBase: construction-time validation

`__init__` (lines 67-89) checks, in order: `highpass < 0`,
`lowpass <= 0`, `order <= 0`, `highpass >= lowpass`, calling
`raise_error` (which raises `ValueError`) on the first violation, and
otherwise stores the parameters. `raise_error` is modelled as
`Except.error` carrying the message. Floats are modelled as rationals
(only comparison and storage occur here). -/

deriving instance DecidableEq for Except

/-- Whether an `Except` value is an error (a raised Python exception in
the embedding). -/
def isError {ε α : Type} : Except ε α → Bool
  | .error _ => true
  | .ok _ => false

/-- The parameter record stored by a successfully constructed
`InstantPhaseConnectivityBase` marker (lines 84-88). `masks` and `name`
are opaque to the computation and omitted. -/
structure IPCMarker where
  highpass : ℚ
  lowpass : ℚ
  order : ℤ
  tr : Option ℚ
deriving DecidableEq

/-- Models `InstantPhaseConnectivityBase.__init__` (lines 67-89): the
four eager validation checks, in source order, then parameter storage. -/
def initIPC (highpass lowpass : ℚ) (order : ℤ) (tr : Option ℚ) :
    Except String IPCMarker :=
  if highpass < 0 then .error "Highpass must be positive or 0"
  else if lowpass ≤ 0 then .error "Lowpass must be positive"
  else if order ≤ 0 then .error "Order must be positive"
  else if highpass ≥ lowpass then .error "Highpass must be lower than lowpass"
  else .ok ⟨highpass, lowpass, order, tr⟩

/-- A value of the result dictionary of the phase-coherence `compute`:
either the coherence tensor (under key `data`) or a label list (under
`col_names` / `row_names`). -/
inductive PVal (T R : ℕ) where
  | tensor : (Fin T → Fin R → Fin R → ℝ) → PVal T R
  | labels : List String → PVal T R

/-- Models `InstantPhaseConnectivityBase.compute` (lines 128-201) after
the aggregation step. The external library calls are oracle parameters:
`zscoreF` for `stats.zscore(roi_data, axis=0)`, `butterF` for
`nil_signal.butterworth` (taking sampling rate, lowpass, highpass,
order) and `hilbertAngleF` for `np.angle(signal.hilbert(..., axis=0))`.
`headerTr` stands for `input["data"].header.get_zooms()[3]`. The body
performs no parameter validation: it conditions the data, builds the
`iphc` tensor and packages the dict literal of lines 194-200 — the inner
dict keyed `data`, `col_names`, `row_names` (the latter two both set to
the aggregation's `col_names`), nested under the single key `fc`. -/
noncomputable def computeIPC {T R : ℕ} (zscoreF : Mat T R → Mat T R)
    (butterF : ℚ → ℚ → ℚ → ℤ → Mat T R → Mat T R)
    (hilbertAngleF : Mat T R → Mat T R) (m : IPCMarker) (headerTr : ℚ)
    (roiData : Mat T R) (colNames : List String) :
    List (String × List (String × PVal T R)) :=
  let zscored := zscoreF roiData
  let tr := match m.tr with
    | some t => t
    | none => headerTr
  let filtered := butterF (1 / tr) m.lowpass m.highpass m.order zscored
  let phi := hilbertAngleF filtered
  [("fc", [("data", PVal.tensor (iphc phi)),
           ("col_names", PVal.labels colNames),
           ("row_names", PVal.labels colNames)])]

/-- C3. Constructing the phase-coherence marker fails exactly when
`highpass < 0`, or `lowpass ≤ 0`, or `order ≤ 0`, or
`highpass ≥ lowpass`; it succeeds for every combination with
`0 ≤ highpass < lowpass` and `order > 0`; and the validation lives
entirely in construction: `computeIPC` packages a result for every
parameter record and every input, performing no check. -/
theorem initIPC_validation (hp lp : ℚ) (o : ℤ) (tr : Option ℚ) :
    (isError (initIPC hp lp o tr) = true ↔
      (hp < 0 ∨ lp ≤ 0 ∨ o ≤ 0 ∨ hp ≥ lp)) ∧
    ((0 ≤ hp ∧ hp < lp ∧ 0 < o) →
      initIPC hp lp o tr = .ok ⟨hp, lp, o, tr⟩) ∧
    (∀ (T R : ℕ) (zs : Mat T R → Mat T R)
      (bf : ℚ → ℚ → ℚ → ℤ → Mat T R → Mat T R) (ha : Mat T R → Mat T R)
      (m : IPCMarker) (htr : ℚ) (roi : Mat T R) (cn : List String),
      computeIPC zs bf ha m htr roi cn =
        [("fc", [("data", PVal.tensor (iphc (ha (bf
            (1 / (match m.tr with | some t => t | none => htr))
            m.lowpass m.highpass m.order (zs roi))))),
          ("col_names", PVal.labels cn),
          ("row_names", PVal.labels cn)])]) := by
  refine ⟨?_, ?_, ?_⟩
  · unfold initIPC
    split_ifs with h1 h2 h3 h4
    · simp [isError, h1]
    · simp [isError, h2]
    · simp [isError, h3]
    · simp [isError, h4]
    · simp only [isError, Bool.false_eq_true, false_iff]
      rintro (h | h | h | h)
      · exact h1 h
      · exact h2 h
      · exact h3 h
      · exact h4 h
  · rintro ⟨h1, h2, h3⟩
    unfold initIPC
    rw [if_neg (not_lt.mpr h1), if_neg (not_le.mpr (lt_of_le_of_lt h1 h2)),
      if_neg (not_le.mpr h3), if_neg (not_le.mpr h2)]
  · intro T R zs bf ha m htr roi cn
    rfl

/-- Witness for C3 at a concrete configuration: highpass 1/100,
lowpass 1/10, order 5 is valid and constructs; highpass 1/2,
lowpass 1/10 is invalid and errors. -/
theorem initIPC_validation_witness :
    initIPC (1/100) (1/10) 5 none = .ok ⟨1/100, 1/10, 5, none⟩ ∧
    isError (initIPC (1/2) (1/10) 5 none) = true :=
  ⟨(initIPC_validation (1/100) (1/10) 5 none).2.1 (by norm_num),
   (initIPC_validation (1/2) (1/10) 5 none).1.mpr (by norm_num)⟩

/-- C9. In the phase-coherence variant's result, the `row_names` entry
and the `col_names` entry of the `fc` dict are the same label list: the
aggregation's `col_names`, in the same order (both set from
`aggregation["aggregation"]["col_names"]` at lines 197-198). -/
theorem computeIPC_row_names_eq_col_names {T R : ℕ}
    (zs : Mat T R → Mat T R) (bf : ℚ → ℚ → ℚ → ℤ → Mat T R → Mat T R)
    (ha : Mat T R → Mat T R) (m : IPCMarker) (htr : ℚ) (roi : Mat T R)
    (cn : List String) :
    ∃ inner, (computeIPC zs bf ha m htr roi cn).lookup "fc" = some inner ∧
      inner.lookup "row_names" = some (PVal.labels cn) ∧
      inner.lookup "col_names" = some (PVal.labels cn) ∧
      inner.lookup "row_names" = inner.lookup "col_names" := by
  refine ⟨[("data", PVal.tensor (iphc (ha (bf
      (1 / (match m.tr with | some t => t | none => htr))
      m.lowpass m.highpass m.order (zs roi))))),
    ("col_names", PVal.labels cn), ("row_names", PVal.labels cn)], ?_, ?_, ?_, ?_⟩
  · rfl
  · rfl
  · rfl
  · rfl

/-! ## BCTPYSpheres: metric registry and graph-metric evaluation

`bctpy_spheres.py` keeps a fixed registry
`_metrics_dict = {"degrees_und": bct.algorithms.degrees_und}` and
`compute` (lines 108-154) runs

  out_vals = []
  for t_metric in self.metrics:
      metric = _metrics_dict[t_metric]     -- KeyError when absent
      out_vals.append(metric(graph))
  out = dict with keys data, col_names

Matrices are modelled as lists of rows over a numeric carrier `R`
(the source operates on NumPy float arrays, which the dispatch and
packaging logic treats opaquely; concrete counterexamples instantiate
`R` at the integers). The loop is modelled
with an explicit trace (second component) recording, in order, the
metric names whose function was actually applied to the graph, so that
partial computation before a failed lookup is observable. -/

/-- Modelled from the external `bct` library: `degrees_und` binarizes
the connection matrix and returns its column sums (node degrees). -/
def binarize {R : Type} [DecidableEq R] [Zero R] [One R]
    (w : List (List R)) : List (List R) :=
  w.map (fun row => row.map (fun x => if x = 0 then 0 else 1))

/-- Column-wise sums of a list of rows (`np.sum(CIJ, axis=0)`). -/
def colSums {R : Type} [Add R] : List (List R) → List R
  | [] => []
  | [r] => r
  | r :: rest => List.zipWith (· + ·) r (colSums rest)

/-- The undirected degree metric of the external `bct` library. -/
def degrees_und {R : Type} [DecidableEq R] [Zero R] [One R] [Add R]
    (w : List (List R)) : List R :=
  colSums (binarize w)

/-- Models `_metrics_dict` (lines 19-21): the fixed registry from metric
names to graph-metric functions; lookup of an unregistered name is the
`KeyError` case (`none`). -/
def metricsDict {R : Type} [DecidableEq R] [Zero R] [One R] [Add R] :
    String → Option (List (List R) → List R) :=
  fun name => if name = "degrees_und" then some degrees_und else none

/-- Models the metric loop of `BCTPYSpheres.compute` (lines 145-148)
over an arbitrary registry. First component: the accumulated
`out_vals`, or the offending name on a failed lookup (`KeyError`).
Second component: the trace of metric names whose function was applied
to the graph, in evaluation order — the loop computes `metric(graph)`
for every registered name it reaches before a failed lookup aborts the
batch. -/
def evalMetrics {G V : Type} (reg : String → Option (G → V)) (graph : G) :
    List String → Except String (List V) × List String
  | [] => (.ok [], [])
  | name :: rest =>
    match reg name with
    | none => (.error name, [])
    | some f =>
      let v := f graph
      match evalMetrics reg graph rest with
      | (.ok vs, tr) => (.ok (v :: vs), name :: tr)
      | (.error e, tr) => (.error e, name :: tr)

/-- A value of the graph-metric result dictionary: the list of metric
outputs (under key `data`) or a label list (under `col_names`). -/
inductive BVal (R : Type) where
  | arr : List (List R) → BVal R
  | labels : List String → BVal R
deriving DecidableEq

/-- Models `BCTPYSpheres.compute` after the superclass FC step (lines
143-154): evaluate the requested metrics against the registry and, on
success, package the dict literal `out` of lines 150-153, whose keys
are exactly `data` and `col_names`. -/
def computeBCTPY {R : Type} [DecidableEq R] [Zero R] [One R] [Add R]
    (metrics : List String) (graph : List (List R)) :
    Except String (List (String × BVal R)) :=
  match (evalMetrics metricsDict graph metrics).1 with
  | .error e => .error e
  | .ok vals => .ok [("data", BVal.arr vals), ("col_names", BVal.labels metrics)]

/-- The estimator parameters handed through to the wrapped
FunctionalConnectivitySpheres computation (the `CacheKey` fields).
Sub-parameter dictionaries and mask specifications are opaque to the
caching and dispatch logic and are modelled as string-keyed tokens. -/
structure FCParams where
  coords : String
  radius : Option ℚ
  allow_overlap : Bool
  agg_method : String
  agg_method_params : Option (List (String × String))
  cor_method : String
  cor_method_params : Option (List (String × String))
  masks : Option String
deriving DecidableEq

/-- The state stored by `BCTPYSpheres.__init__` (lines 64-90): the
normalized metric list plus the parameters passed to the superclass. -/
structure BCTPYMarker where
  metrics : List String
  fcParams : FCParams
deriving DecidableEq

/-- Models `BCTPYSpheres.__init__` (lines 64-90): a plain string is
wrapped into a one-element list (`if not isinstance(metrics, list):
metrics = [metrics]`) before storage. -/
def initBCTPY (metrics : String ⊕ List String) (p : FCParams) : BCTPYMarker :=
  ⟨match metrics with
    | .inl s => [s]
    | .inr l => l,
   p⟩

/-- `compute` of a constructed `BCTPYSpheres` marker, given the
connectivity matrix `conn_out["data"]` delivered by the superclass. -/
def computeBCTPYMarker {R : Type} [DecidableEq R] [Zero R] [One R] [Add R]
    (m : BCTPYMarker) (connData : List (List R)) :
    Except String (List (String × BVal R)) :=
  computeBCTPY m.metrics connData

/-- C6 counterexample. Requesting `["degrees_und", "foo"]` against a
2×2 adjacency matrix fails with the lookup error for `foo` — but the
trace of applied metrics is `["degrees_und"]`, not empty: the valid
metric preceding the unknown name *was* computed, contradicting the
claim that no partial computation is performed. -/
theorem computeBCTPY_partial_before_unknown :
    computeBCTPY ["degrees_und", "foo"] ([[0, 1], [1, 0]] : List (List ℤ)) =
      .error "foo" ∧
    (evalMetrics metricsDict ([[0, 1], [1, 0]] : List (List ℤ))
      ["degrees_und", "foo"]).2 = ["degrees_und"] ∧
    (evalMetrics metricsDict ([[0, 1], [1, 0]] : List (List ℤ))
      ["degrees_und", "foo"]).2 ≠ [] := by
  refine ⟨by decide, by decide, by decide⟩

/-- C6 (amended). If the requested list is a block of registered names
followed by an unregistered name, evaluation fails with the lookup
error naming the first unregistered name, and the metrics preceding it
are evaluated (they form the trace) though their results are discarded:
the call returns no partial results. -/
theorem evalMetrics_unknown_aborts {G V : Type}
    (reg : String → Option (G → V)) (g : G)
    (pre : List String) (bad : String) (rest : List String)
    (hpre : ∀ n ∈ pre, (reg n).isSome = true) (hbad : reg bad = none) :
    evalMetrics reg g (pre ++ bad :: rest) = (.error bad, pre) := by
  induction pre with
  | nil => simp [evalMetrics, hbad]
  | cons n pre ih =>
    have hn : (reg n).isSome = true := hpre n (List.mem_cons_self n pre)
    obtain ⟨f, hf⟩ := Option.isSome_iff_exists.mp hn
    have ih2 := ih (fun x hx => hpre x (List.mem_cons_of_mem n hx))
    simp [evalMetrics, hf, ih2]

/-- Witness for the amended C6 at a concrete input: one registered
metric before the unknown name `foo`. -/
theorem evalMetrics_unknown_aborts_witness :
    evalMetrics metricsDict ([[0, 1], [1, 0]] : List (List ℤ))
      (["degrees_und"] ++ "foo" :: []) = (.error "foo", ["degrees_und"]) :=
  evalMetrics_unknown_aborts metricsDict [[0, 1], [1, 0]]
    ["degrees_und"] "foo" []
    (by intro n hn
        simp only [List.mem_singleton] at hn
        subst hn
        simp [metricsDict])
    (by simp [metricsDict])

/-- C8 counterexample. The graph-metric variant's result at a concrete
input is exactly the two-entry dictionary with keys `data` and
`col_names`: it does not include `row_names`, contradicting the claim
that every variant's result carries all three fields. -/
theorem computeBCTPY_lacks_row_names :
    computeBCTPY ["degrees_und"] ([[0, 1], [1, 0]] : List (List ℤ)) =
      .ok [("data", BVal.arr [[1, 1]]),
           ("col_names", BVal.labels ["degrees_und"])] ∧
    "row_names" ∉
      ([("data", BVal.arr [[1, 1]]),
        ("col_names", BVal.labels ["degrees_und"])].map Prod.fst) := by
  refine ⟨by decide, by decide⟩

/-- C8 (amended). The result-field contract as the code implements it:
every successful graph-metric result is a dictionary with keys exactly
`data` and `col_names` (no `row_names`), while the phase-coherence
variant's result nests, under the single key `fc`, a dictionary with
keys exactly `data`, `col_names` and `row_names`. -/
theorem marker_result_fields {A : Type} [DecidableEq A] [Zero A] [One A]
    [Add A] (metrics : List String)
    (g : List (List A)) (res : List (String × BVal A))
    (h : computeBCTPY metrics g = .ok res) :
    res.map Prod.fst = ["data", "col_names"] ∧
    "row_names" ∉ res.map Prod.fst ∧
    (∀ (T R : ℕ) (zs : Mat T R → Mat T R)
      (bf : ℚ → ℚ → ℚ → ℤ → Mat T R → Mat T R) (ha : Mat T R → Mat T R)
      (m : IPCMarker) (htr : ℚ) (roi : Mat T R) (cn : List String),
      (computeIPC zs bf ha m htr roi cn).map
          (fun kv => (kv.1, kv.2.map Prod.fst)) =
        [("fc", ["data", "col_names", "row_names"])]) := by
  unfold computeBCTPY at h
  rcases he : (evalMetrics metricsDict g metrics).1 with e | vals
  · rw [he] at h
    exact absurd h (by simp)
  · rw [he] at h
    rcases h with ⟨⟩
    refine ⟨rfl, ?_, ?_⟩
    · simp only [List.map_cons, List.map_nil]
      decide
    · intro T R zs bf ha m htr roi cn
      rfl

/-- Witness for the amended C8 at a concrete input. -/
theorem marker_result_fields_witness :
    ([("data", BVal.arr [[1, 1]]),
      ("col_names", BVal.labels ["degrees_und"])].map Prod.fst) =
      ["data", "col_names"] :=
  (marker_result_fields ["degrees_und"] ([[0, 1], [1, 0]] : List (List ℤ))
    [("data", BVal.arr [[1, 1]]),
     ("col_names", BVal.labels ["degrees_und"])] (by decide)).1

/-- C10. Constructing the graph-metric marker with a plain string is
the same as constructing it with the one-element list: the stored
`metrics` attribute is always a list (the string is wrapped), and
`compute` behaves identically on every connectivity matrix. -/
theorem initBCTPY_string_as_singleton (s : String) (p : FCParams) :
    initBCTPY (.inl s) p = initBCTPY (.inr [s]) p ∧
    (initBCTPY (.inl s) p).metrics = [s] ∧
    (∀ l : List String, (initBCTPY (.inr l) p).metrics = l) ∧
    (∀ (A : Type) [DecidableEq A] [Zero A] [One A] [Add A]
      (g : List (List A)),
      computeBCTPYMarker (initBCTPY (.inl s) p) g =
        computeBCTPYMarker (initBCTPY (.inr [s]) p) g) :=
  ⟨rfl, rfl, fun _ => rfl, fun _ _ _ _ _ _ => rfl⟩

/-! ## BCTPYSpheresEstimator: the memoizing estimator

`bctpy_spheres_estimator.py` defines a singleton whose `_compute`
method is decorated with `lru_cache(maxsize=None, typed=True)`.
`fit_transform` (lines 57-127) compares the incoming
`input_data["path"]` with the recorded `_file_path`; on a difference it
logs a removal notice, clears the whole cache and records the new path,
otherwise it logs a reuse notice; then it calls

  self._compute(data=bold_data, coords=coords, radius=radius, ...)

`_compute`'s own signature (lines 34-43) is
`(coords, radius, allow_overlap, agg_method, agg_method_params,
cor_method, cor_method_params, masks)` — it has neither a `self` nor a
`data` parameter and no var-keyword parameter. The `lru_cache` wrapper
builds its key from the full argument tuple and, on a miss, invokes the
wrapped function, whose Python argument binding then fails: `data` is
not a parameter name (and, `lru_cache` wrappers being descriptors,
the bound `self` additionally lands in `coords`, which is also given by
keyword). Binding is modelled by the unexpected-keyword check, which is
decisive under either reading; exceptions are never stored by
`lru_cache`. The wrapped `FunctionalConnectivitySpheres` computation is
an oracle `fc`. -/

/-- The key the unbounded `lru_cache` builds from the call's arguments:
the identity of the `data=` argument (an opaque token) together with
the computation parameters. The singleton `self` bound into the key is
constant and omitted. -/
structure CallKey where
  dataTok : String
  params : FCParams
deriving DecidableEq

/-- The parameter names of `_compute`'s signature (lines 34-43). -/
def computeParamNames : List String :=
  ["coords", "radius", "allow_overlap", "agg_method", "agg_method_params",
   "cor_method", "cor_method_params", "masks"]

/-- The keyword-argument names of the call at lines 117-127. -/
def fitTransformKwargNames : List String :=
  ["data", "coords", "radius", "allow_overlap", "agg_method",
   "agg_method_params", "cor_method", "cor_method_params", "masks"]

/-- Models the wrapped user function `_compute` as invoked by
`fit_transform`: Python argument binding rejects the call with a
`TypeError` when some keyword name of the call is not among the
parameters of `_compute`'s signature; only on a successful bind would
the external `FunctionalConnectivitySpheres` computation (`fc`) run. -/
def computeFn {V : Type} (fc : FCParams → V) (k : CallKey) :
    Except String V :=
  if fitTransformKwargNames.any (fun kw => !(computeParamNames.contains kw))
  then .error "TypeError"
  else .ok (fc k.params)

/-- Association lookup in the memo table. -/
def lookupCache {K V : Type} [DecidableEq K] (cache : List (K × V))
    (k : K) : Option V :=
  match cache.find? (fun q => decide (q.1 = k)) with
  | some q => some q.2
  | none => none

/-- Models one call through an `lru_cache(maxsize=None)` wrapper: on a
hit the stored value is returned without invoking the wrapped function;
on a miss the wrapped function runs (third component `true`) and its
result is stored only on success — an exception propagates and leaves
the table untouched. -/
def lruCall {K V E : Type} [DecidableEq K] (f : K → Except E V)
    (cache : List (K × V)) (k : K) :
    Except E V × List (K × V) × Bool :=
  match lookupCache cache k with
  | some v => (.ok v, cache, false)
  | none =>
    match f k with
    | .ok v => (.ok v, (k, v) :: cache, true)
    | .error e => (.error e, cache, true)

/-- The observable log notices of `fit_transform` (lines 109 and 115):
the removal notice reports the previously recorded path, the reuse
notice the current one. -/
inductive Notice where
  | cacheRemoved (oldPath : Option String)
  | cacheUsed (path : Option String)
deriving DecidableEq

/-- The singleton estimator's state: the `_file_path` recorded at the
previous call (`None` after `__init__`, line 31) and the `lru_cache`
table of `_compute`. `V` is the wrapped computation's result type. -/
structure EstState (V : Type) where
  file_path : Option String
  cache : List (CallKey × V)
deriving DecidableEq

/-- The estimator state right after `__init__`: no recorded path, empty
cache. -/
def initEstState (V : Type) : EstState V := ⟨none, []⟩

/-- Everything one `fit_transform` call produces: the returned value or
raised exception, the estimator state afterwards, the emitted notices,
and whether the wrapped function was invoked (the recomputation
indicator). -/
structure FTOut (V : Type) where
  result : Except String V
  state : EstState V
  notices : List Notice
  invoked : Bool
deriving DecidableEq

/-- Models `BCTPYSpheresEstimator.fit_transform` (lines 57-127):
identity check with en-masse cache clearing and notice emission, then
the `lru_cache`-wrapped call of `_compute` with the keyword arguments
of lines 117-127. -/
def fitTransform {V : Type} [DecidableEq V] (fc : FCParams → V)
    (st : EstState V) (boldPath dataTok : String) (p : FCParams) :
    FTOut V :=
  if st.file_path ≠ some boldPath then
    let (res, cache2, invoked) :=
      lruCall (computeFn fc) ([] : List (CallKey × V)) ⟨dataTok, p⟩
    ⟨res, ⟨some boldPath, cache2⟩, [Notice.cacheRemoved st.file_path], invoked⟩
  else
    let (res, cache2, invoked) := lruCall (computeFn fc) st.cache ⟨dataTok, p⟩
    ⟨res, ⟨st.file_path, cache2⟩, [Notice.cacheUsed st.file_path], invoked⟩

/-- A concrete parameter record: `coords="DMN"`, every other parameter
at its default from the `fit_transform` signature (lines 57-67). -/
def exampleParams : FCParams :=
  ⟨"DMN", none, false, "mean", none, "covariance", none, none⟩

/-- C1. Evaluating `fit_transform` at the failing input: from the fresh
singleton state, a call with `coords="DMN"` and defaults raises
`TypeError` (after emitting the removal notice and clearing the cache),
and the immediately repeated identical call — same parameters, same
input identity — raises `TypeError` again with the wrapped function
invoked again (`invoked = true`): no call ever returns a result, cached
or fresh, because `_compute`'s signature has neither a `data` nor a
`self` parameter while the call passes `data=` (and binds `self`) —
contradicting the claimed cache hit on the second call. -/
theorem fitTransform_always_type_errors :
    fitTransform (fun _ => (0 : ℕ)) (initEstState ℕ)
      "/data/sub-01_bold.nii.gz" "bold-data-0" exampleParams =
      ⟨.error "TypeError", ⟨some "/data/sub-01_bold.nii.gz", []⟩,
       [Notice.cacheRemoved none], true⟩ ∧
    fitTransform (fun _ => (0 : ℕ))
      ⟨some "/data/sub-01_bold.nii.gz", []⟩
      "/data/sub-01_bold.nii.gz" "bold-data-0" exampleParams =
      ⟨.error "TypeError", ⟨some "/data/sub-01_bold.nii.gz", []⟩,
       [Notice.cacheUsed (some "/data/sub-01_bold.nii.gz")], true⟩ :=
  ⟨by decide, by decide⟩

/-- C7. When the wrapped transformation raises on a call whose key is
not in the table and whose input identity matches the recorded one, the
exception propagates, the estimator state is completely unchanged (no
entry is cached for that key), and the repeated identical call invokes
the wrapped transformation again (`invoked = true`) instead of
returning a cached failure. -/
theorem fitTransform_error_not_cached {V : Type} [DecidableEq V]
    (fc : FCParams → V) (st : EstState V) (path tok : String)
    (p : FCParams) (e : String)
    (hid : st.file_path = some path)
    (hmiss : lookupCache st.cache (⟨tok, p⟩ : CallKey) = none)
    (hf : computeFn fc (⟨tok, p⟩ : CallKey) = .error e) :
    fitTransform fc st path tok p =
      ⟨.error e, st, [Notice.cacheUsed (some path)], true⟩ ∧
    fitTransform fc (fitTransform fc st path tok p).state path tok p =
      ⟨.error e, st, [Notice.cacheUsed (some path)], true⟩ := by
  have h1 : fitTransform fc st path tok p =
      ⟨.error e, st, [Notice.cacheUsed (some path)], true⟩ := by
    unfold fitTransform
    rw [hid]
    simp only [ne_eq, not_true_eq_false, if_false]
    rw [show lruCall (computeFn fc) st.cache ⟨tok, p⟩ =
        (.error e, st.cache, true) by
      unfold lruCall
      rw [hmiss, hf]]
    rw [← hid]
  refine ⟨h1, ?_⟩
  rw [h1]
  exact h1

/-- Witness for C7 at a concrete state: recorded path matches, empty
cache, and the wrapped call fails (with the `TypeError` that every
call of this estimator in fact produces). -/
theorem fitTransform_error_not_cached_witness :
    fitTransform (fun _ => (0 : ℕ)) ⟨some "/f.nii", []⟩ "/f.nii" "d0"
      exampleParams =
      ⟨.error "TypeError", ⟨some "/f.nii", []⟩,
       [Notice.cacheUsed (some "/f.nii")], true⟩ :=
  (fitTransform_error_not_cached (fun _ => (0 : ℕ))
    ⟨some "/f.nii", []⟩ "/f.nii" "d0" exampleParams "TypeError"
    rfl rfl (by decide)).1

end JuniFarm
